import Mathlib

/-!
Shallow embedding of the Sandwich-Producer gateway producer (Go), covering the
event pipeline marshalers (src/unnamed/part_007, the current generation of
marshal.go), the cache entity methods (src/structs.go, src/old/user.go for the
MarshalGuild methods used by part_007), the session heartbeat and open logic
(src/session.go), the manager startup scaling decision (src/gateway/manager.go)
and the shard connect sequence (src/gateway/shard.go).

Conventions of the embedding:
  - Discord snowflake identifiers are decimal strings; they are kept as String.
    strconv.Atoi is modelled by atoi below (0 on parse failure, as Go discards
    the error at every call site that the claims touch).
  - Go slices distinguish nil from an empty slice under reflect.DeepEqual, so a
    Go slice field is modelled as Option (List A): none is the nil slice.
  - Redis hashes are modelled as functions from field key to Option value; redis
    sets as functions to Bool.  Member hash values are msgpack blobs that no
    verified property inspects, so the members hash stores presence only.
  - Durations are modelled in nanoseconds as Nat, matching the int64 value that
    backs time.Duration.
-/

namespace Sandwich

/-- digitVal is the value of a decimal digit character, none otherwise. -/
def digitVal (c : Char) : Option Nat :=
  if 48 ≤ c.toNat ∧ c.toNat ≤ 57 then some (c.toNat - 48) else none

/-- atoiGo accumulates the decimal value of a character list, none on the
first character that is not a digit. -/
def atoiGo : List Char → Nat → Option Nat
  | [], acc => some acc
  | c :: cs, acc =>
    match digitVal c with
    | some d => atoiGo cs (acc * 10 + d)
    | none => none

/-- atoi models strconv.Atoi applied to a snowflake with the error discarded:
the numeric value of a plain decimal string, and 0 when parsing fails, e.g. on
an empty or non-numeric string (part_007 readyMarshaler and
guildCreateMarshaler both ignore the error, leaving the zero int). -/
def atoi (s : String) : Nat :=
  match s.data with
  | [] => 0
  | cs => (atoiGo cs 0).getD 0

/-- GoSlice models a Go slice under reflect.DeepEqual: none is the nil slice,
some l an allocated slice with elements l (nil and empty are not DeepEqual). -/
abbrev GoSlice (α : Type) := Option (List α)

/-- getL gives the elements a Go range loop iterates over (nil ranges as empty). -/
def GoSlice.getL {α : Type} (s : GoSlice α) : List α := s.getD []

/-- User models the User struct of src/structs.go.  The Mutual field is tagged
json:"-" msgpack:"-" and carries two LockSet value slices; it is represented by
the two Values slices (the mutexes carry no data). -/
structure User where
  id : String
  username : String
  avatar : String
  discriminator : String
  token : String
  mfaEnabled : Bool
  bot : Bool
  mutualGuilds : GoSlice String
  mutualRemoved : GoSlice String
  deriving DecidableEq, Repr

/-- Role models the Role struct of src/structs.go. -/
structure Role where
  id : String
  name : String
  managed : Bool
  mentionable : Bool
  hoist : Bool
  color : Int
  position : Int
  permissions : Int
  deriving DecidableEq, Repr

/-- PermissionOverwrite models the PermissionOverwrite struct of src/structs.go. -/
structure PermissionOverwrite where
  id : String
  type : String
  deny : Int
  allow : Int
  deriving DecidableEq, Repr

/-- Channel models the Channel struct of src/structs.go.  Timestamp fields are
strings; the ChannelType enum is an int. -/
structure Channel where
  id : String
  guildID : String
  name : String
  topic : String
  type : Int
  lastMessageID : String
  lastPinTimestamp : String
  nsfw : Bool
  icon : String
  position : Int
  bitrate : Int
  recipients : GoSlice User
  permissionOverwrites : GoSlice PermissionOverwrite
  userLimit : Int
  parentID : String
  rateLimitPerUser : Int
  deriving DecidableEq, Repr

/-- Emoji models the Emoji struct of src/structs.go. -/
structure Emoji where
  id : String
  name : String
  roles : GoSlice String
  managed : Bool
  requireColons : Bool
  animated : Bool
  available : Bool
  deriving DecidableEq, Repr

/-- Member models the Member struct of src/structs.go.  The User field is a
pointer, hence Option (none is the nil pointer). -/
structure Member where
  guildID : String
  joinedAt : String
  nick : String
  deaf : Bool
  mute : Bool
  user : Option User
  id : String
  roles : GoSlice String
  premiumSince : String
  deriving DecidableEq, Repr

/-- MarshalGuild models the MarshalGuild struct used by part_007 (the variant
in src/old/user.go, which carries the Members field that part_007 iterates;
src/marshalstructs.go is the same struct without Members).  Fields tagged
msgpack:"-" (RoleValues, EmojiValues, ChannelValues, Members) are transient:
they are filled from JSON but never persisted. -/
structure MarshalGuild where
  id : String
  name : String
  icon : String
  region : String
  afkChannelID : String
  embedChannelID : String
  ownerID : String
  joinedAt : String
  splash : String
  afkTimeout : Int
  memberCount : Int
  verificationLevel : Int
  embedEnabled : Bool
  large : Bool
  defaultMessageNotifications : Int
  roles : GoSlice String
  roleValues : GoSlice Role
  emojis : GoSlice String
  emojiValues : GoSlice Emoji
  channels : GoSlice String
  channelValues : GoSlice Channel
  members : GoSlice Member
  unavailable : Bool
  explicitContentFilter : Int
  features : GoSlice String
  mfaLevel : Int
  widgetEnabled : Bool
  widgetChannelID : String
  systemChannelID : String
  vanityURLCode : String
  description : String
  banner : String
  premiumTier : Int
  premiumSubscriptionCount : Int
  deriving DecidableEq, Repr

/-- zero is the zero MarshalGuild value, as returned by getGuild (manager.go)
when the redis lookup fails: the named return g keeps its zero value. -/
def MarshalGuild.zero : MarshalGuild :=
  { id := "", name := "", icon := "", region := "", afkChannelID := ""
    embedChannelID := "", ownerID := "", joinedAt := "", splash := ""
    afkTimeout := 0, memberCount := 0, verificationLevel := 0
    embedEnabled := false, large := false, defaultMessageNotifications := 0
    roles := none, roleValues := none, emojis := none, emojiValues := none
    channels := none, channelValues := none, members := none
    unavailable := false, explicitContentFilter := 0, features := none
    mfaLevel := 0, widgetEnabled := false, widgetChannelID := ""
    systemChannelID := "", vanityURLCode := "", description := "", banner := ""
    premiumTier := 0, premiumSubscriptionCount := 0 }

/-- create models MarshalGuild.Create (src/old/user.go lines 153-177): after
json unmarshalling (the argument is the unmarshalled struct), the Roles,
Channels and Emojis id lists are rebuilt from the transient value slices
(make of length 0 then append, hence an allocated, possibly empty slice). -/
def MarshalGuild.create (mg : MarshalGuild) : MarshalGuild :=
  { mg with
    roles := some (mg.roleValues.getL.map Role.id)
    channels := some (mg.channelValues.getL.map Channel.id)
    emojis := some (mg.emojiValues.getL.map Emoji.id) }

/-- persisted models the round trip MarshalGuild.From after MarshalGuild.Save:
msgpack keeps every tagged field and the fields tagged msgpack:"-" come back as
their zero value (nil) in the fresh struct From decodes into. -/
def MarshalGuild.persisted (mg : MarshalGuild) : MarshalGuild :=
  { mg with roleValues := none, emojiValues := none, channelValues := none
            members := none }

/-- UnavailableGuild models the UnavailableGuild struct of src/structs.go. -/
structure UnavailableGuild where
  id : String
  unavailable : Bool
  deriving DecidableEq, Repr

/-- MState is the mutable state the pipeline reads and writes: the redis cache
hashes and sets keyed as in the source, plus the in-memory Unavailables map and
the per-shard UnavailableCounters LockSet values of the Manager. -/
structure MState where
  /-- hash ns:guilds, field guild id, value the persisted MarshalGuild. -/
  guilds : String → Option MarshalGuild
  /-- hashes ns:guild:gid:roles, field role id. -/
  guildRoles : String → String → Option Role
  /-- hash ns:channels, field channel id. -/
  channels : String → Option Channel
  /-- hash ns:emojis, field emoji id. -/
  emojis : String → Option Emoji
  /-- hashes ns:guild:gid:members, field user id (presence of the msgpack blob). -/
  guildMembers : String → String → Bool
  /-- sets ns:user:uid:mutual, member guild id. -/
  userMutual : String → String → Bool
  /-- in-memory map Unavailables of the Manager (session.go / part_007). -/
  unavailables : String → Option Bool
  /-- Values slices of the UnavailableCounters LockSets, one per shard id. -/
  counters : Nat → List String

/-- emptyState is the state at process start: empty cache, empty Unavailables,
empty counters. -/
def emptyState : MState :=
  { guilds := fun _ => none
    guildRoles := fun _ _ => none
    channels := fun _ => none
    emojis := fun _ => none
    guildMembers := fun _ _ => false
    userMutual := fun _ _ => false
    unavailables := fun _ => none
    counters := fun _ => [] }

/-- updF is a pointwise update of a one-key map. -/
def updF {β : Type} (f : String → β) (k : String) (v : β) : String → β :=
  fun x => if x = k then v else f x

/-- updF2 is a pointwise update of a two-key map. -/
def updF2 {β : Type} (f : String → String → β) (k1 k2 : String) (v : β) :
    String → String → β :=
  fun x y => if x = k1 ∧ y = k2 then v else f x y

/-- lockSetAdd models LockSet.Add (src/utils.go lines 100-118): append the
value unless already contained. -/
def lockSetAdd (vals : List String) (v : String) : List String :=
  if v ∈ vals then vals else vals ++ [v]

/-- lockSetRemove models LockSet.Remove (src/utils.go lines 82-97): rebuild the
slice keeping every element different from the value. -/
def lockSetRemove (vals : List String) (v : String) : List String :=
  vals.filter (fun x => x ≠ v)

/-- Config carries the configuration fields the embedded handlers read. -/
structure Config where
  shardCount : Nat
  cacheMembers : Bool
  ignoredEvents : List String
  producerBlacklist : List String

/-- belongsToList models belongsToList of src/utils.go. -/
def belongsToList (list : List String) (lookup : String) : Bool :=
  list.contains lookup

/-- saveGuild models MarshalGuild.Save (src/old/user.go lines 230-291): bulk
HSet of the roles of the guild into its roles hash, of the channel values into
ns:channels, of the emoji values into ns:emojis, then HSet of the msgpack
encoding of the guild (its persisted projection) into ns:guilds. -/
def saveGuild (mg : MarshalGuild) (st : MState) : MState :=
  let rolesH := mg.roleValues.getL.foldl
    (fun h r => updF h r.id (some r)) (st.guildRoles mg.id)
  let channelsH := mg.channelValues.getL.foldl
    (fun h c => updF h c.id (some c)) st.channels
  let emojisH := mg.emojiValues.getL.foldl
    (fun h e => updF h e.id (some e)) st.emojis
  { st with
    guildRoles := fun g => if g = mg.id then rolesH else st.guildRoles g
    channels := channelsH
    emojis := emojisH
    guilds := updF st.guilds mg.id (some mg.persisted) }

/-- getGuild models Manager.getGuild (src/manager.go lines 338-354): HGet on
ns:guilds then MarshalGuild.From; on a missing field the error is returned and
the named return keeps the zero MarshalGuild. -/
def getGuild (st : MState) (id : String) : MarshalGuild :=
  (st.guilds id).getD MarshalGuild.zero

/-- StreamData is the dynamically typed Data field of a StreamEvent, restricted
to the payload shapes the embedded marshalers construct. -/
inductive StreamData where
  | nilData : StreamData
  | guild : MarshalGuild → StreamData
  | unavailableGuild : UnavailableGuild → StreamData
  | guildPair : MarshalGuild → MarshalGuild → StreamData
  | shard : Nat → StreamData
  deriving DecidableEq, Repr

/-- StreamEvent models the StreamEvent struct of src/events.go. -/
structure StreamEvent where
  type : String
  data : StreamData
  deriving DecidableEq, Repr

/-- zeroSE is the zero StreamEvent value a marshaler starts from. -/
def zeroSE : StreamEvent := { type := "", data := StreamData.nilData }

/-- EventData is the dynamically typed payload of an inbound Event, restricted
to the dispatch types the embedded marshalers consume.  The READY payload is
reduced to the guild id list (readyMarshaler reads only the guild IDs). -/
inductive EventData where
  | nilData : EventData
  | ready : List String → EventData
  | guildPayload : MarshalGuild → EventData
  | unavailableGuild : UnavailableGuild → EventData
  | shard : Nat → EventData
  deriving DecidableEq, Repr

/-- Event models the Event struct of src/events.go restricted to the fields the
pipeline reads (Type and the unmarshalled payload). -/
structure Event where
  type : String
  data : EventData
  deriving DecidableEq, Repr

/-- MarshalerResult is the outcome of one marshaler call: the ok flag and
StreamEvent it returns, the updated state, and the list of synthetic events the
marshaler injected into the event queue via Session.OnEvent. -/
structure MarshalerResult where
  ok : Bool
  se : StreamEvent
  state : MState
  injected : List Event

/-- memberKeyUID is the user id a member is keyed under: Marshaled sets
me.ID = me.User.ID.  A nil User would be a nil dereference in Go; members of a
GUILD_CREATE or GUILD_MEMBER payload always carry the user object. -/
def memberKeyUID (me : Member) : String := ((me.user).map User.id).getD ""

/-- cacheGuildMembers models the CacheMembers branch of guildCreateMarshaler
(part_007 lines 142-165): for every member of the payload, Marshaled(true, m)
runs AddMutual(guildID) on the user of the payload (whose in-memory mutual sets
start empty: the Mutual field is excluded from json) followed by SaveMutual,
which issues SAdd of the guild id on the mutual set of the user; the HExists
probe of the ns:user hash never finds the user because nothing in this
generation writes that hash.  The member marshals are then stored with one bulk
HSet on the members hash of the guild, keyed by me.ID. -/
def cacheGuildMembers (gid : String) (ms : List Member) (st : MState) : MState :=
  { st with
    userMutual :=
      ms.foldl (fun mu me => updF2 mu (memberKeyUID me) gid true) st.userMutual
    guildMembers :=
      ms.foldl (fun h me => updF2 h gid (memberKeyUID me) true) st.guildMembers }

/-- guildCreateMarshaler models guildCreateMarshaler of part_007 (lines 78-181):
parse the guild (MarshalGuild.Create), remove its id from the
UnavailableCounters LockSet of its shard, inject a synthetic SHARD_READY event
when the counter length is now at most 0, probe ns:guilds for the guild
(HExists, before Save), save the guild, then branch on the Unavailables entry:
when the entry exists or the guild was cached, the GUILD_AVAILABLE StreamEvent
is built for an unavailable cached guild and members are cached otherwise, but
the trailing assignment sets ok to false unconditionally in this branch;
otherwise ok is true with a GUILD_JOIN StreamEvent. -/
def guildCreateMarshaler (cfg : Config) (st : MState) (payload : MarshalGuild) :
    MarshalerResult :=
  let guild := payload.create
  let shardID := (atoi guild.id >>> 22) % cfg.shardCount
  let counter := lockSetRemove (st.counters shardID) guild.id
  let st1 := { st with counters := fun i => if i = shardID then counter else st.counters i }
  let injected := if counter.length ≤ 0 then
      [{ type := "SHARD_READY", data := EventData.shard shardID }] else []
  let ic := (st1.guilds guild.id).isSome
  let st2 := saveGuild guild st1
  let uo := (st2.unavailables guild.id).isSome
  let un := (st2.unavailables guild.id).getD false
  if uo || ic then
    let se := if un && ic then
        { type := "GUILD_AVAILABLE", data := StreamData.guild guild } else zeroSE
    let st3 := if !(un && ic) && cfg.cacheMembers then
        cacheGuildMembers guild.id guild.members.getL st2 else st2
    { ok := false, se := se, state := st3, injected := injected }
  else
    { ok := true, se := { type := "GUILD_JOIN", data := StreamData.guild guild }
      state := st2, injected := injected }

/-- guildDeleteMarshaler models guildDeleteMarshaler of part_007 (lines
183-222): delete the Unavailables entry; when the payload is unavailable set
the entry to true and emit GUILD_UNAVAILABLE; otherwise run
UnavailableGuild.Delete (src/structs.go lines 464-472), which issues a single
HDel of the guild id on ns:guilds, and emit GUILD_REMOVE. -/
def guildDeleteMarshaler (st : MState) (pg : UnavailableGuild) : MarshalerResult :=
  let st1 := { st with unavailables := updF st.unavailables pg.id none }
  if pg.unavailable then
    { ok := true
      se := { type := "GUILD_UNAVAILABLE", data := StreamData.unavailableGuild pg }
      state := { st1 with unavailables := updF st1.unavailables pg.id (some true) }
      injected := [] }
  else
    { ok := true
      se := { type := "GUILD_REMOVE", data := StreamData.unavailableGuild pg }
      state := { st1 with guilds := updF st1.guilds pg.id none }
      injected := [] }

/-- guildUpdateMarshaler models guildUpdateMarshaler of part_007 (lines
224-263): parse the updated guild, fetch the cached one (zero MarshalGuild when
absent), save the updated guild, and emit a before and after pair exactly when
reflect.DeepEqual on the two structs fails (the comparison covers every field,
including the transient RoleValues, EmojiValues, ChannelValues and Members that
the cached copy never carries). -/
def guildUpdateMarshaler (st : MState) (payload : MarshalGuild) : MarshalerResult :=
  let updatedGuild := payload.create
  let guild := getGuild st updatedGuild.id
  let st1 := saveGuild updatedGuild st
  if guild = updatedGuild then
    { ok := false, se := zeroSE, state := st1, injected := [] }
  else
    { ok := true
      se := { type := "GUILD_UPDATE", data := StreamData.guildPair guild updatedGuild }
      state := st1, injected := [] }

/-- readyMarshaler models readyMarshaler of part_007 (lines 52-76): the shard
id is recovered from the snowflake of the first READY guild, then every guild
of the READY payload gets Unavailables set to false and its id added to the
UnavailableCounters LockSet of that shard; ok is true with the zero
StreamEvent. -/
def readyMarshaler (cfg : Config) (st : MState) (guildIDs : List String) :
    MarshalerResult :=
  let shardID := (atoi (guildIDs.headD "") >>> 22) % cfg.shardCount
  let st1 := guildIDs.foldl
    (fun s gid =>
      { s with
        unavailables := updF s.unavailables gid (some false)
        counters := fun i => if i = shardID then lockSetAdd (s.counters i) gid
                             else s.counters i }) st
  { ok := true, se := zeroSE, state := st1, injected := [] }

/-- toStream is the untyped Data copy se.Data = e.Data performed by the
passthrough marshalers, translated between the two payload sums. -/
def EventData.toStream : EventData → StreamData
  | EventData.nilData => StreamData.nilData
  | EventData.ready _ => StreamData.nilData
  | EventData.guildPayload g => StreamData.guild g
  | EventData.unavailableGuild ug => StreamData.unavailableGuild ug
  | EventData.shard n => StreamData.shard n

/-- shardReadyMarshaler models shardReadyMarshaler of part_007 (lines 27-34):
ok is true and the Data of the event is copied into the StreamEvent. -/
def shardReadyMarshaler (st : MState) (d : EventData) : MarshalerResult :=
  { ok := true, se := { type := "", data := d.toStream }, state := st, injected := [] }

/-- callMarshaler models the marshalers registry lookup (part_007 init, lines
788-841) for the event types the claims exercise; none means no marshaler is
registered.  A registered type whose payload fails to unmarshal makes the
marshaler return early with ok false and the state untouched, observationally
the same as the none branch of Manager.OnEvent, so mismatched payload shapes
are folded into none. -/
def callMarshaler (cfg : Config) (st : MState) (e : Event) : Option MarshalerResult :=
  match e.type, e.data with
  | "READY", EventData.ready gs => some (readyMarshaler cfg st gs)
  | "SHARD_READY", d => some (shardReadyMarshaler st d)
  | "GUILD_CREATE", EventData.guildPayload g => some (guildCreateMarshaler cfg st g)
  | "GUILD_UPDATE", EventData.guildPayload g => some (guildUpdateMarshaler st g)
  | "GUILD_DELETE", EventData.unavailableGuild ug => some (guildDeleteMarshaler st ug)
  | _, _ => none

/-- onEvent models Manager.OnEvent (src/manager.go lines 262-287): the
StreamEvent is taken from the marshaler only when ok is true, and an empty Type
is replaced by the Type of the incoming event. -/
def onEvent (cfg : Config) (st : MState) (e : Event) : MarshalerResult :=
  match callMarshaler cfg st e with
  | some r =>
    let data := if r.ok then r.se else zeroSE
    { r with se := if data.type = "" then { data with type := e.type } else data }
  | none =>
    { ok := false, se := { zeroSE with type := e.type }, state := st, injected := [] }

/-- RunOutcome is the observable outcome of feeding a list of events through
ForwardEvents: the final state, the StreamEvents pushed to the produce channel,
and the synthetic events injected back into the event queue. -/
structure RunOutcome where
  state : MState
  produced : List StreamEvent
  injected : List Event

/-- forwardEvent models one iteration of Manager.ForwardEvents (src/manager.go
lines 291-305): ignored types are dropped; otherwise the event goes through
OnEvent and the StreamEvent is produced when ok holds and the type is not
blacklisted. -/
def forwardEvent (cfg : Config) (acc : RunOutcome) (e : Event) : RunOutcome :=
  if belongsToList cfg.ignoredEvents e.type then acc
  else
    let r := onEvent cfg acc.state e
    { state := r.state
      produced := acc.produced ++
        (if r.ok && !(belongsToList cfg.producerBlacklist e.type) then [r.se] else [])
      injected := acc.injected ++ r.injected }

/-- runPipeline folds forwardEvent over an event list.  Injected events reenter
the event queue through Session.OnEvent and are processed after the inputs; the
outcome records them so that injections can be counted. -/
def runPipeline (cfg : Config) (st : MState) (es : List Event) : RunOutcome :=
  es.foldl (forwardEvent cfg) { state := st, produced := [], injected := [] }

/-- GoPanic names the runtime panics the embedded operations can hit. -/
inductive GoPanic where
  | nilUserDeref : GoPanic
  deriving DecidableEq, Repr

/-- guildMemberAddOp is the cache effect of guildMemberAddMarshaler (part_007
lines 528-552): when CacheMembers is enabled, Marshaled(true, m) adds the guild
id to the mutual set of the payload user (AddMutual then SaveMutual, an SAdd on
the mutual set key of the user) and the member marshal is HSet on the members
hash of the guild under the user id; with CacheMembers disabled nothing is
written. -/
def guildMemberAddOp (cacheMembers : Bool) (gid uid : String) (st : MState) : MState :=
  if cacheMembers then
    { st with
      userMutual := updF2 st.userMutual uid gid true
      guildMembers := updF2 st.guildMembers gid uid true }
  else st

/-- guildMemberUpdateOp is the cache effect of guildMemberUpdateMarshaler
(part_007 lines 572-625).  When the member is not in the members hash, getMember
(src/manager.go lines 394-414) returns the HGet error and the marshaler returns
early without writing.  When the member exists, getMember panics before any
write: the println right after the HGet calls err.Error() on the nil error,
and even past that, Member.From (src/structs.go lines 336-363) would
dereference the nil User pointer in me.User.FetchMutual (msgpack leaves User
nil and FetchUser(false, m), comparing the nil pointer against the address of
a fresh User, never fetches it).  Either way no cache key changes. -/
def guildMemberUpdateOp (gid uid : String) (st : MState) : Except GoPanic MState :=
  if st.guildMembers gid uid then Except.error GoPanic.nilUserDeref
  else Except.ok st

/-- guildMemberRemoveOp is the cache effect of guildMemberRemoveMarshaler
(part_007 lines 554-570) via Member.Delete (src/structs.go lines 435-451): HDel
of the user id on the members hash of the guild; then getUser reads the ns:user
hash, which nothing in this generation ever writes, so it fails and u stays the
zero User with an empty id; RemoveMutual marks the guild id removed on that
zero user and SaveMutual issues the SRem on the mutual set keyed by the empty
user id, leaving the mutual set of the real user untouched. -/
def guildMemberRemoveOp (gid uid : String) (st : MState) : MState :=
  let st1 := { st with guildMembers := updF2 st.guildMembers gid uid false }
  { st1 with userMutual := updF2 st1.userMutual "" gid false }

/-- mutualInvariant is the claim C7 invariant: for every user the mutual-guild
set holds exactly the guilds with a member entry for that user. -/
def mutualInvariant (st : MState) : Prop :=
  ∀ uid gid, st.userMutual uid gid = st.guildMembers gid uid

/-- nsPerMs is the int64 value of time.Millisecond in nanoseconds. -/
def nsPerMs : Nat := 1000000

/-- FailedHeartbeatAcks models the constant of src/session.go lines 56-57: the
time.Duration 5 * time.Millisecond, whose int64 value is 5000000 nanoseconds. -/
def FailedHeartbeatAcks : Nat := 5 * nsPerMs

/-- closeNormalClosure is websocket.CloseNormalClosure, close code 1000. -/
def closeNormalClosure : Nat := 1000

/-- HeartbeatAction is what one heartbeat iteration decides to do. -/
inductive HeartbeatAction where
  | keepRunning : HeartbeatAction
  | closeThenReconnect : Nat → HeartbeatAction
  deriving DecidableEq, Repr

/-- heartbeatCheck models the failure test of one iteration of
Session.heartbeat (src/session.go lines 336-372): writeErr says whether the
heartbeat WriteJSON failed, elapsedNs is the time since LastHeartbeatAck in
nanoseconds, intervalRaw is the numeric value of the Hello heartbeat interval
(a millisecond count; as a Go time.Duration its int64 value equals that count
in nanoseconds, and the ticker runs at heartbeatIntervalMsec*time.Millisecond).
The guard compares the elapsed time against
heartbeatIntervalMsec*FailedHeartbeatAcks, the product of the two int64
values, i.e. five real heartbeat intervals; on failure the session calls
s.Close(), which is CloseWithStatus(websocket.CloseNormalClosure)
(src/session.go lines 586-590), followed by s.reconnect(). -/
def heartbeatCheck (writeErr : Bool) (elapsedNs intervalRaw : Nat) : HeartbeatAction :=
  if writeErr = true ∨ elapsedNs > intervalRaw * FailedHeartbeatAcks then
    HeartbeatAction.closeThenReconnect closeNormalClosure
  else HeartbeatAction.keepRunning

/-- OpenError enumerates the error exits of Session.Open (src/session.go lines
152-286). -/
inductive OpenError where
  | wsAlreadyOpen : OpenError
  | gatewayNotFound : OpenError
  | dialFailed : OpenError
  | helloReadFailed : OpenError
  | unexpectedOp : Int → OpenError
  | identifyFailed : OpenError
  | resumeFailed : OpenError
  | readyReadFailed : OpenError
  deriving DecidableEq, Repr

/-- SessionState carries the Session fields Open reads and writes (a connection
is an opaque handle; none is the nil wsConn). -/
structure SessionState where
  wsConn : Option Nat
  gateway : String
  sessionID : String
  sequence : Int
  listening : Bool
  shardID : Nat
  deriving DecidableEq, Repr

/-- GatewayFrame is an inbound frame reduced to its op code. -/
structure GatewayFrame where
  op : Int
  deriving DecidableEq, Repr

/-- OpenEnv abstracts the network during one Session.Open call: the dial
outcome with its connection handle, the first read (none is a read or decode
error), the handshake write outcome, and the second read. -/
structure OpenEnv where
  dialOK : Bool
  connID : Nat
  firstFrame : Option GatewayFrame
  writeOK : Bool
  secondFrame : Option GatewayFrame
  deriving DecidableEq, Repr

/-- OpenResult is the return of Session.Open together with the session state
after the call and the event types dispatched to the event channel. -/
structure OpenResult where
  outcome : Except OpenError Unit
  state : SessionState
  dispatched : List String
  deriving Repr

/-- sessionOpenTail models the tail of Session.Open after a successful
identify or resume write: read the READY or RESUMED packet (any decoded frame
is accepted), dispatch SHARD_READY, create the listening channel and start the
heartbeat and listen tasks.  The deferred closer drops the connection on a read
error. -/
def sessionOpenTail (s : SessionState) (env : OpenEnv) : OpenResult :=
  match env.secondFrame with
  | none =>
    { outcome := Except.error OpenError.readyReadFailed
      state := { s with wsConn := none }, dispatched := [] }
  | some _ =>
    { outcome := Except.ok ()
      state := { s with wsConn := some env.connID, listening := true }
      dispatched := ["SHARD_READY"] }

/-- sessionOpen models Session.Open (src/session.go lines 152-286).  The first
test, under the session lock, returns ErrWSAlreadyOpen when wsConn is not nil,
before the gateway check, the dial and the handshake; every later error path
resets wsConn to nil through the deferred closer. -/
def sessionOpen (s : SessionState) (env : OpenEnv) : OpenResult :=
  if s.wsConn.isSome then
    { outcome := Except.error OpenError.wsAlreadyOpen, state := s, dispatched := [] }
  else if s.gateway = "" then
    { outcome := Except.error OpenError.gatewayNotFound
      state := { s with wsConn := none }, dispatched := [] }
  else if env.dialOK = false then
    { outcome := Except.error OpenError.dialFailed
      state := { s with wsConn := none }, dispatched := [] }
  else
    match env.firstFrame with
    | none =>
      { outcome := Except.error OpenError.helloReadFailed
        state := { s with wsConn := none }, dispatched := [] }
    | some f =>
      if f.op ≠ 10 then
        { outcome := Except.error (OpenError.unexpectedOp f.op)
          state := { s with wsConn := none }, dispatched := [] }
      else if s.sessionID = "" ∧ s.sequence = 0 then
        if env.writeOK = false then
          { outcome := Except.error OpenError.identifyFailed
            state := { s with wsConn := none }, dispatched := [] }
        else sessionOpenTail s env
      else
        if env.writeOK = false then
          { outcome := Except.error OpenError.resumeFailed
            state := { s with wsConn := none }, dispatched := [] }
        else sessionOpenTail s env

/-- roundShardStride models the rounding of Manager.Open
(src/gateway/manager.go lines 274-276): shard counts above 63 are rounded with
int(math.Ceil(float64(shardCount)/16))*16; the float ceiling is exact at these
magnitudes and is the ceiling division on Nat. -/
def roundShardStride (n : Nat) : Nat :=
  if n > 63 then ((n + 15) / 16) * 16 else n

/-- chooseShardCount models the selection of Manager.Open
(src/gateway/manager.go lines 263-269): the recommendation is taken when
AutoSharded is set or the configured count is below half the recommendation
(Go integer division). -/
def chooseShardCount (autoSharded : Bool) (requested recommended : Nat) : Nat :=
  if autoSharded = true ∨ requested < recommended / 2 then recommended else requested

/-- sessionLimitWarned models src/gateway/manager.go lines 258-261: a warning
is logged, and nothing else happens, when twice the configured shard count
reaches the remaining session limit. -/
def sessionLimitWarned (configured remaining : Nat) : Bool :=
  decide (remaining ≤ configured * 2)

/-- managerOpen models the decision flow of Manager.Open
(src/gateway/manager.go lines 239-282): fetch gateway/bot (none models the
fetch error return), log the banner, maybe warn about the session limit,
choose and round the shard count and hand it to Scale.  There is no code path
that aborts on the remaining session limit. -/
def managerOpen (fetchErr autoSharded : Bool) (requested recommended remaining : Nat) :
    Option (Nat × Bool) :=
  if fetchErr then none
  else some (roundShardStride (chooseShardCount autoSharded requested recommended),
             sessionLimitWarned requested remaining)

/-- ConnectStep enumerates the phases of Shard.connect (src/gateway/shard.go
lines 57-166) in source order: WaitForIdentifyRatelimit (the identify bucket
keyed by shardID mod MaxConcurrency, capacity 1, 5 second refill,
src/gateway/manager.go lines 295-301), ReadyLimiter.Wait,
ReadyLimiter.FreeTicket (issued immediately after Wait, before dialing; the
source carries a TODO to free the ticket only once ready), websocket.Dial, and
the read loop awaiting READY. -/
inductive ConnectStep where
  | waitBucket : ConnectStep
  | acquireTicket : ConnectStep
  | freeTicket : ConnectStep
  | dial : ConnectStep
  | awaitReady : ConnectStep
  deriving DecidableEq, Repr

/-- connectOrder is the order in which Shard.connect performs the steps. -/
def connectOrder : List ConnectStep :=
  [ConnectStep.waitBucket, ConnectStep.acquireTicket, ConnectStep.freeTicket,
   ConnectStep.dial, ConnectStep.awaitReady]

/-- ShardRun is a configuration of several shards running Shard.connect
concurrently: for each shard the index into connectOrder of its next step (5
is past READY), and the number of free tickets in the ReadyLimiter channel
(src/utils.go lines 148-173: a channel of capacity limit, filled at start). -/
structure ShardRun where
  pcs : List Nat
  available : Nat
  deriving DecidableEq, Repr

/-- initRun is the start configuration: every shard before its first step and
all limit tickets free. -/
def initRun (n limit : Nat) : ShardRun :=
  { pcs := List.replicate n 0, available := limit }

/-- stepShard advances shard i by one step when that step is enabled: Wait
receives a ticket from the channel (blocked at zero), FreeTicket sends one
back; the bucket wait and the network steps complete after enough time.  none
means the shard is finished or currently blocked. -/
def stepShard (s : ShardRun) (i : Nat) : Option ShardRun :=
  match s.pcs[i]? with
  | none => none
  | some pc =>
    if pc = 1 then
      if s.available = 0 then none
      else some { pcs := s.pcs.set i (pc + 1), available := s.available - 1 }
    else if pc = 2 then
      some { pcs := s.pcs.set i (pc + 1), available := s.available + 1 }
    else if pc < 5 then
      some { pcs := s.pcs.set i (pc + 1), available := s.available }
    else none

/-- runSched executes a schedule, one shard step at a time. -/
def runSched (s : ShardRun) : List Nat → Option ShardRun
  | [] => some s
  | i :: rest =>
    match stepShard s i with
    | none => none
    | some s2 => runSched s2 rest

/-- countAwaiting counts the shards sitting in the read loop between dial and
READY (the AWAIT_READY phase). -/
def countAwaiting (s : ShardRun) : Nat :=
  s.pcs.countP (fun pc => decide (pc = 4))

/-- countHolding counts the shards holding a ReadyLimiter ticket (past Wait,
before FreeTicket). -/
def countHolding (s : ShardRun) : Nat :=
  s.pcs.countP (fun pc => decide (pc = 2))

/-- cfgOne is a one-shard configuration with member caching disabled and no
ignored or blacklisted event types. -/
def cfgOne : Config :=
  { shardCount := 1, cacheMembers := false, ignoredEvents := []
    producerBlacklist := [] }

/-- gidA is the snowflake 1 <<< 22 as a decimal string: its shard for a single
shard is 0. -/
def gidA : String := "4194304"

/-- gidB is the snowflake 2 <<< 22 as a decimal string. -/
def gidB : String := "8388608"

/-- roleFive is a concrete role carried by test payloads. -/
def roleFive : Role :=
  { id := "5", name := "five", managed := false, mentionable := false
    hoist := false, color := 0, position := 0, permissions := 0 }

/-- payloadA is a GUILD_CREATE or GUILD_UPDATE payload for guild A with no
roles, channels, emojis or members listed. -/
def payloadA : MarshalGuild := { MarshalGuild.zero with id := gidA }

/-- payloadB is a payload for guild B. -/
def payloadB : MarshalGuild := { MarshalGuild.zero with id := gidB }

/-- payloadARole is a payload for guild A listing one role. -/
def payloadARole : MarshalGuild :=
  { MarshalGuild.zero with id := gidA, roleValues := some [roleFive] }

/-- stateC1 is reached by a GUILD_CREATE for guild A followed by a
GUILD_DELETE with unavailable set: guild A is cached and its Unavailables
entry is true. -/
def stateC1 : MState :=
  (guildDeleteMarshaler (guildCreateMarshaler cfgOne emptyState payloadA).state
    { id := gidA, unavailable := true }).state

/-- stateC2 is reached by a GUILD_CREATE for guild A carrying one role,
followed by a member add for user 7 on guild A: the roles hash and members
hash of guild A are populated. -/
def stateC2 : MState :=
  guildMemberAddOp true gidA "7"
    (guildCreateMarshaler cfgOne emptyState payloadARole).state

/-- stateC8 is reached by a READY listing guild A: the Unavailables entry of A
is false and the shard counter holds A. -/
def stateC8 : MState := (readyMarshaler cfgOne emptyState [gidA]).state

/-- stateRoleA is reached by a GUILD_CREATE for guild A carrying one role. -/
def stateRoleA : MState :=
  (guildCreateMarshaler cfgOne emptyState payloadARole).state

/-- eventReadyA is a READY event listing guild A. -/
def eventReadyA : Event := { type := "READY", data := EventData.ready [gidA] }

/-- eventReadyAB is a READY event listing guilds A and B. -/
def eventReadyAB : Event := { type := "READY", data := EventData.ready [gidA, gidB] }

/-- eventCreateA is a GUILD_CREATE event for guild A. -/
def eventCreateA : Event :=
  { type := "GUILD_CREATE", data := EventData.guildPayload payloadA }

/-- eventCreateB is a GUILD_CREATE event for guild B. -/
def eventCreateB : Event :=
  { type := "GUILD_CREATE", data := EventData.guildPayload payloadB }

/-- openSession is a session whose websocket connection is already open. -/
def openSession : SessionState :=
  { wsConn := some 1, gateway := "wss://gateway", sessionID := "sid"
    sequence := 7, listening := true, shardID := 0 }

/-- someEnv is one concrete network environment for sessionOpen. -/
def someEnv : OpenEnv :=
  { dialOK := true, connID := 2, firstFrame := some { op := 10 }
    writeOK := true, secondFrame := some { op := 0 } }

/-- otherEnv is a different network environment (the dial fails). -/
def otherEnv : OpenEnv :=
  { dialOK := false, connID := 3, firstFrame := none
    writeOK := false, secondFrame := none }

/-- ticketInv is the ReadyLimiter accounting invariant: free tickets plus held
tickets equal the channel capacity. -/
def ticketInv (limit : Nat) (s : ShardRun) : Prop :=
  s.available + countHolding s = limit

end Sandwich

namespace Sandwich

/-- C1: for a GUILD_CREATE event whose guild has Unavailables entry true and is
present in the cache, the spec expects a GUILD_AVAILABLE downstream event.  The
marshaler of part_007 builds the GUILD_AVAILABLE StreamEvent (and its own
comment says to fire it), but the unconditional trailing assignment ok = false
of that branch drops it, so nothing is forwarded: evaluated at the failing
input, ok is false while the built StreamEvent is GUILD_AVAILABLE (first two
conjuncts).  The other two branches behave as claimed: no entry and not cached
emits GUILD_JOIN, and an entry of false (warm-up) emits nothing. -/
theorem guildCreate_available_is_dropped :
    (guildCreateMarshaler cfgOne stateC1 payloadA).ok = false ∧
    (guildCreateMarshaler cfgOne stateC1 payloadA).se.type = "GUILD_AVAILABLE" ∧
    (guildCreateMarshaler cfgOne emptyState payloadA).ok = true ∧
    (guildCreateMarshaler cfgOne emptyState payloadA).se.type = "GUILD_JOIN" ∧
    (guildCreateMarshaler cfgOne stateC8 payloadA).ok = false := by
  decide

/-- C8: the spec says the Unavailables entry of a guild is removed after every
GUILD_CREATE (and the in-code comment of part_007 reads as if the marshaler
removed it), but guildCreateMarshaler only reads the map: after a READY listing
guild A set the entry to false, processing a GUILD_CREATE for A leaves the
entry present with value false; likewise, with the entry true and the guild
cached, processing GUILD_CREATE leaves the entry present with value true. -/
theorem guildCreate_keeps_unavailables_entry :
    ((guildCreateMarshaler cfgOne stateC8 payloadA).state.unavailables gidA)
      = some false ∧
    ((guildCreateMarshaler cfgOne stateC1 payloadA).state.unavailables gidA)
      = some true := by
  decide

/-- C2 counterexample: processing GUILD_DELETE with unavailable false for a
guild whose roles hash and members hash are populated removes only the
ns:guilds entry: the role and member entries survive, refuting that all
subordinate entities are removed. -/
theorem guildDelete_leaves_subordinates :
    (guildDeleteMarshaler stateC2 { id := gidA, unavailable := false }).state.guilds gidA
        = none ∧
    (guildDeleteMarshaler stateC2 { id := gidA, unavailable := false }).state.guildRoles
        gidA "5" = some roleFive ∧
    (guildDeleteMarshaler stateC2 { id := gidA, unavailable := false }).state.guildMembers
        gidA "7" = true ∧
    (guildDeleteMarshaler stateC2 { id := gidA, unavailable := false }).se.type
        = "GUILD_REMOVE" := by
  decide

/-- C2 as amended: GUILD_DELETE with unavailable true sets the Unavailables
entry to true, leaves every cache hash (including ns:guilds) untouched and
emits GUILD_UNAVAILABLE; with unavailable false it removes exactly the
ns:guilds entry of the guild, leaves the role, channel, emoji, member and
mutual tables untouched, and emits GUILD_REMOVE. -/
theorem guildDelete_cache_effects (st : MState) (pg : UnavailableGuild) :
    (guildDeleteMarshaler st pg).ok = true ∧
    (guildDeleteMarshaler st pg).state.guildRoles = st.guildRoles ∧
    (guildDeleteMarshaler st pg).state.channels = st.channels ∧
    (guildDeleteMarshaler st pg).state.emojis = st.emojis ∧
    (guildDeleteMarshaler st pg).state.guildMembers = st.guildMembers ∧
    (guildDeleteMarshaler st pg).state.userMutual = st.userMutual ∧
    (pg.unavailable = true →
      (guildDeleteMarshaler st pg).state.unavailables pg.id = some true ∧
      (guildDeleteMarshaler st pg).state.guilds = st.guilds ∧
      (guildDeleteMarshaler st pg).se.type = "GUILD_UNAVAILABLE") ∧
    (pg.unavailable = false →
      (guildDeleteMarshaler st pg).state.guilds pg.id = none ∧
      (∀ g2, g2 ≠ pg.id →
        (guildDeleteMarshaler st pg).state.guilds g2 = st.guilds g2) ∧
      (guildDeleteMarshaler st pg).se.type = "GUILD_REMOVE") := by
  unfold guildDeleteMarshaler
  cases h : pg.unavailable
  · simp [updF]
    intro g2 hg2
    simp [hg2]
  · simp [updF]

/-- C2 witness: the amended theorem applied at a concrete state and payload,
each implication discharged. -/
theorem guildDelete_cache_effects_witness :
    (guildDeleteMarshaler stateC2 { id := gidA, unavailable := false }).state.guilds gidA
        = none ∧
    (guildDeleteMarshaler stateC1 { id := gidA, unavailable := true }).state.unavailables
        gidA = some true := by
  refine ⟨?_, ?_⟩
  · exact ((guildDelete_cache_effects stateC2
      { id := gidA, unavailable := false }).2.2.2.2.2.2.2 rfl).1
  · exact ((guildDelete_cache_effects stateC1
      { id := gidA, unavailable := true }).2.2.2.2.2.2.1 rfl).1

/-- C5 counterexample: a heartbeat iteration that sees more than
maxFailedAcks heartbeat intervals elapse since the last ack closes the
websocket with the normal closure code 1000, not with code 4000 as claimed:
evaluated just past the threshold for a 41250 ms interval. -/
theorem heartbeat_close_code_not_4000 :
    heartbeatCheck false (41250 * FailedHeartbeatAcks + 1) 41250
      = HeartbeatAction.closeThenReconnect 1000 ∧
    heartbeatCheck false (41250 * FailedHeartbeatAcks + 1) 41250
      ≠ HeartbeatAction.closeThenReconnect 4000 := by
  decide

/-- C5 as amended: when more than five heartbeat intervals (the
FailedHeartbeatAcks multiplier) elapse since the last op 11 ack, the session
closes its websocket with close code 1000 (normal closure, via Session.Close)
and enters the reconnect path; the threshold used by the code equals five real
heartbeat intervals. -/
theorem heartbeat_timeout_reconnects (elapsedNs intervalRaw : Nat)
    (h : elapsedNs > intervalRaw * FailedHeartbeatAcks) :
    heartbeatCheck false elapsedNs intervalRaw
      = HeartbeatAction.closeThenReconnect closeNormalClosure ∧
    intervalRaw * FailedHeartbeatAcks = 5 * (intervalRaw * nsPerMs) := by
  constructor
  · unfold heartbeatCheck
    rw [if_pos (Or.inr h)]
  · unfold FailedHeartbeatAcks
    ring

/-- C5 witness: the amended theorem applied at a concrete elapsed time and
interval. -/
theorem heartbeat_timeout_reconnects_witness :
    heartbeatCheck false (41250 * FailedHeartbeatAcks + 1) 41250
      = HeartbeatAction.closeThenReconnect closeNormalClosure :=
  (heartbeat_timeout_reconnects (41250 * FailedHeartbeatAcks + 1) 41250
    (by decide)).1

/-- C6 counterexample: with autoshard off, 10 requested shards and 16
recommended, Manager.Open keeps 10 (because 10 is not below 16 / 2 = 8) while
max of 10 and 16 is 16; and with 0 sessions remaining it still proceeds (some
result, with only the warning flag set) instead of aborting. -/
theorem managerOpen_not_max_no_abort :
    managerOpen false false 10 16 0 = some (10, true) ∧
    max 10 16 = 16 ∧ (10 : Nat) ≠ 16 := by
  decide

/-- C6 as amended: Manager.Open chooses the recommended shard count when
autoshard is set or the requested count is below half the recommendation
(integer division), and otherwise the requested count; a choice above 63 is
rounded up to the next multiple of 16 (the least multiple of 16 at or above
it); startup proceeds regardless of the remaining session limit, which only
drives the warning flag. -/
theorem managerOpen_scaling (auto : Bool) (req rec rem : Nat) :
    (auto = true → chooseShardCount auto req rec = rec) ∧
    (auto = false → req < rec / 2 → chooseShardCount auto req rec = rec) ∧
    (auto = false → rec / 2 ≤ req → chooseShardCount auto req rec = req) ∧
    (chooseShardCount auto req rec ≤ 63 →
      managerOpen false auto req rec rem
        = some (chooseShardCount auto req rec, sessionLimitWarned req rem)) ∧
    (63 < chooseShardCount auto req rec →
      managerOpen false auto req rec rem
        = some (roundShardStride (chooseShardCount auto req rec),
                sessionLimitWarned req rem) ∧
      roundShardStride (chooseShardCount auto req rec) % 16 = 0 ∧
      chooseShardCount auto req rec ≤ roundShardStride (chooseShardCount auto req rec) ∧
      roundShardStride (chooseShardCount auto req rec)
        < chooseShardCount auto req rec + 16) := by
  refine ⟨?_, ?_, ?_, ?_, ?_⟩
  · intro ha
    simp [chooseShardCount, ha]
  · intro ha hlt
    simp [chooseShardCount, ha, hlt]
  · intro ha hge
    simp [chooseShardCount, ha]
    omega
  · intro hle
    simp [managerOpen, roundShardStride]
    omega
  · intro hgt
    refine ⟨?_, ?_, ?_, ?_⟩
    · simp [managerOpen]
    · simp [roundShardStride, hgt]
    · simp [roundShardStride, hgt]
      omega
    · simp [roundShardStride, hgt]
      omega

/-- C6 witness: the amended theorem applied with autoshard off, 100 shards
requested and recommended and 0 sessions remaining: 100 exceeds 63 and rounds
to 112, a multiple of 16, and startup still proceeds. -/
theorem managerOpen_scaling_witness :
    managerOpen false false 100 100 0
      = some (roundShardStride (chooseShardCount false 100 100),
              sessionLimitWarned 100 0) ∧
    roundShardStride (chooseShardCount false 100 100) % 16 = 0 := by
  have h := (managerOpen_scaling false 100 100 0).2.2.2.2 (by decide)
  exact ⟨h.1, h.2.1⟩

/-- C10: calling Open on a session whose websocket connection is already open
returns ErrWSAlreadyOpen at the first check, leaves the session state (wsConn,
sessionID, sequence and the rest) unchanged, dispatches nothing, and performs
no network interaction: the outcome is the same under every environment. -/
theorem sessionOpen_already_open (s : SessionState) (env : OpenEnv) (c : Nat)
    (h : s.wsConn = some c) :
    (sessionOpen s env).outcome = Except.error OpenError.wsAlreadyOpen ∧
    (sessionOpen s env).state = s ∧
    (sessionOpen s env).dispatched = [] ∧
    (∀ env2, sessionOpen s env = sessionOpen s env2) := by
  unfold sessionOpen
  simp [h]

/-- C10 witness: the theorem applied to a concrete already-open session under
two different environments. -/
theorem sessionOpen_already_open_witness :
    (sessionOpen openSession someEnv).outcome
      = Except.error OpenError.wsAlreadyOpen ∧
    (sessionOpen openSession someEnv).state = openSession ∧
    sessionOpen openSession someEnv = sessionOpen openSession otherEnv := by
  have h := sessionOpen_already_open openSession someEnv 1 rfl
  exact ⟨h.1, h.2.1, h.2.2.2 otherEnv⟩

/-- guildCreate_stores_guild: whatever branch guildCreateMarshaler takes, the
ns:guilds hash afterwards holds the persisted projection of the parsed guild
under its id (Save runs before the branch and nothing later touches the
hash). -/
theorem guildCreate_stores_guild (cfg : Config) (st : MState) (p : MarshalGuild) :
    (guildCreateMarshaler cfg st p).state.guilds p.create.id
      = some p.create.persisted := by
  simp only [guildCreateMarshaler, saveGuild, cacheGuildMembers]
  split
  · split <;> split <;> simp [updF]
  · simp [updF]

/-- persisted_create_eq: a parsed guild whose payload listed no roles,
channels, emojis and members round-trips through the cache unchanged. -/
theorem persisted_create_eq (p : MarshalGuild)
    (hr : p.roleValues = none) (hch : p.channelValues = none)
    (he : p.emojiValues = none) (hm : p.members = none) :
    p.create.persisted = p.create := by
  cases p
  simp_all [MarshalGuild.create, MarshalGuild.persisted]

/-- C3 as amended: an update event emits a before and after pair exactly when
the cached struct and the freshly parsed struct differ under DeepEqual, a
comparison that also covers the transient RoleValues, EmojiValues,
ChannelValues and Members fields that the cache never stores; consequently a
GUILD_CREATE followed by an identical GUILD_UPDATE emits nothing only when the
payload carries none of those transient values (second conjunct), and emits a
pair whenever it does (see the counterexample). -/
theorem guildUpdate_diff_behaviour (cfg : Config) (st : MState) (p q : MarshalGuild)
    (hr : p.roleValues = none) (hch : p.channelValues = none)
    (he : p.emojiValues = none) (hm : p.members = none) :
    ((guildUpdateMarshaler st q).ok = true ↔
      ¬ getGuild st q.create.id = q.create) ∧
    (guildUpdateMarshaler (guildCreateMarshaler cfg st p).state p).ok = false := by
  constructor
  · simp only [guildUpdateMarshaler]
    split <;> simp_all
  · simp only [guildUpdateMarshaler, getGuild, guildCreate_stores_guild cfg st p,
      Option.getD_some, persisted_create_eq p hr hch he hm, if_pos]

/-- C3 witness: the amended theorem at a payload with no transient values: the
identical update right after the create emits nothing. -/
theorem guildUpdate_diff_behaviour_witness :
    (guildUpdateMarshaler (guildCreateMarshaler cfgOne emptyState payloadA).state
      payloadA).ok = false :=
  (guildUpdate_diff_behaviour cfgOne emptyState payloadA payloadA
    rfl rfl rfl rfl).2

/-- C3 counterexample: a GUILD_CREATE carrying one role followed by an
identical GUILD_UPDATE: the persisted fields of the cached guild agree with
the persisted projection of the incoming guild (second conjunct), yet the
update emits a before and after pair, because DeepEqual also compares the
transient RoleValues that the cached copy lost. -/
theorem guildUpdate_identical_payload_emits :
    (guildUpdateMarshaler stateRoleA payloadARole).ok = true ∧
    getGuild stateRoleA payloadARole.create.id
      = payloadARole.create.persisted := by
  decide

/-- C4 counterexample: SHARD_READY is not injected exactly once at the moment
the READY set becomes empty: after a READY listing only guild A, a
GUILD_CREATE for A empties the set and injects one SHARD_READY, and a
GUILD_CREATE for B (not listed, set already empty) injects a second one,
because the marshaler fires whenever the counter length is at most 0. -/
theorem shardReady_injected_twice :
    ((runPipeline cfgOne emptyState [eventReadyA, eventCreateA, eventCreateB]).injected.countP
      (fun e => decide (e.type = "SHARD_READY"))) = 2 := by
  decide

/-- C4 as amended: every GUILD_CREATE removes the guild id from the
UnavailableCounters set of its shard, and a synthetic SHARD_READY is injected
into the pipeline whenever the set is empty after that removal, including when
it was already empty (first conjunct, an equivalence for any state).  On a
fresh start whose READY lists guilds A and B followed by a GUILD_CREATE for
each, exactly one SHARD_READY is injected and no GUILD_JOIN is produced. -/
theorem shardReady_injection_behaviour :
    (∀ cfg st p,
      ((guildCreateMarshaler cfg st p).injected ≠ [] ↔
        lockSetRemove (st.counters (atoi p.create.id >>> 22 % cfg.shardCount))
          p.create.id = [])) ∧
    (runPipeline cfgOne emptyState [eventReadyAB, eventCreateA, eventCreateB]).injected
      = [{ type := "SHARD_READY", data := EventData.shard 0 }] ∧
    ((runPipeline cfgOne emptyState [eventReadyAB, eventCreateA, eventCreateB]).produced.countP
      (fun se => decide (se.type = "GUILD_JOIN"))) = 0 := by
  refine ⟨?_, by decide, by decide⟩
  intro cfg st p
  simp only [guildCreateMarshaler]
  split <;> split <;> simp_all [List.length_eq_zero]

/-- mutual invariant transfer for the member add operation. -/
theorem mutualInvariant_memberAdd (s : MState) (h : mutualInvariant s)
    (cm : Bool) (g u : String) :
    mutualInvariant (guildMemberAddOp cm g u s) := by
  cases cm
  · exact h
  · intro uid gid
    simp only [guildMemberAddOp, if_pos, updF2]
    by_cases h1 : uid = u <;> by_cases h2 : gid = g <;>
      simp [h1, h2] <;> exact h _ _

/-- C7 as amended: the mutual-guild invariant is preserved by member add (both
sides gain the pair), by member update (which writes nothing: it returns early
when the member is unknown and panics on a nil user dereference before writing
when the member is cached) and by guild delete (which touches neither table);
member remove, however, deletes the member hash entry while its SRem goes to
the mutual set of the empty user id (getUser always fails because the ns:user
hash is never written), leaving every real mutual set unchanged, so the
invariant is not preserved by member remove (see the counterexample). -/
theorem mutual_invariant_per_operation (s : MState) (h : mutualInvariant s)
    (cm : Bool) (g u : String) (pg : UnavailableGuild) :
    mutualInvariant (guildMemberAddOp cm g u s) ∧
    (∀ t, guildMemberUpdateOp g u s = Except.ok t → mutualInvariant t) ∧
    mutualInvariant (guildDeleteMarshaler s pg).state ∧
    ((guildMemberRemoveOp g u s).guildMembers g u = false ∧
      (∀ u2, u2 ≠ "" → (guildMemberRemoveOp g u s).userMutual u2 = s.userMutual u2)) := by
  refine ⟨mutualInvariant_memberAdd s h cm g u, ?_, ?_, ?_, ?_⟩
  · intro t ht
    unfold guildMemberUpdateOp at ht
    split at ht
    · exact absurd ht (by simp)
    · cases ht
      exact h
  · unfold guildDeleteMarshaler
    split <;> exact h
  · simp [guildMemberRemoveOp, updF2]
  · intro u2 hu2
    funext gid
    simp [guildMemberRemoveOp, updF2, hu2]

/-- C7 witness: the amended theorem applied at the empty state (where the
invariant holds trivially) and concrete ids. -/
theorem mutual_invariant_per_operation_witness :
    mutualInvariant (guildMemberAddOp true "1" "2" emptyState) ∧
    (guildMemberRemoveOp "1" "2" emptyState).guildMembers "1" "2" = false :=
  ⟨(mutual_invariant_per_operation emptyState (fun _ _ => rfl) true "1" "2"
      { id := "1", unavailable := false }).1,
   (mutual_invariant_per_operation emptyState (fun _ _ => rfl) true "1" "2"
      { id := "1", unavailable := false }).2.2.2.1⟩

/-- C7 counterexample: starting from the empty cache, a member add for user 2
on guild 1 establishes the invariant, and the subsequent member remove for the
same pair breaks it: the member hash entry is gone while the mutual set of
user 2 still contains guild 1. -/
theorem mutual_invariant_broken_by_remove :
    mutualInvariant (guildMemberAddOp true "1" "2" emptyState) ∧
    ¬ mutualInvariant
        (guildMemberRemoveOp "1" "2" (guildMemberAddOp true "1" "2" emptyState)) := by
  constructor
  · exact mutualInvariant_memberAdd emptyState (fun _ _ => rfl) true "1" "2"
  · intro h
    exact absurd (h "2" "1") (by decide)

/-- countP of held tickets over List.set at a valid index: the contribution of
the replaced element is traded for that of the new value. -/
theorem countP_set_two (l : List Nat) (i v pc : Nat) (h : l[i]? = some pc) :
    (l.set i v).countP (fun x => decide (x = 2)) + (if pc = 2 then 1 else 0)
      = l.countP (fun x => decide (x = 2)) + (if v = 2 then 1 else 0) := by
  induction l generalizing i with
  | nil => simp at h
  | cons a t ih =>
    cases i with
    | zero =>
      simp only [List.getElem?_cons_zero, Option.some.injEq] at h
      subst h
      simp only [List.set_cons_zero, List.countP_cons, decide_eq_true_eq]
      split_ifs <;> omega
    | succ j =>
      simp only [List.getElem?_cons_succ] at h
      have hrec := ih j h
      simp only [List.set_cons_succ, List.countP_cons, decide_eq_true_eq]
      split_ifs at hrec ⊢ <;> omega

/-- stepShard preserves the ticket accounting: free plus held tickets stay
equal to the ReadyLimiter capacity. -/
theorem stepShard_ticketInv (limit : Nat) (s s2 : ShardRun) (i : Nat)
    (h : stepShard s i = some s2) (hinv : ticketInv limit s) :
    ticketInv limit s2 := by
  unfold stepShard at h
  cases hg : s.pcs[i]? with
  | none => rw [hg] at h; exact absurd h (by simp)
  | some pc =>
    rw [hg] at h
    dsimp only at h
    have hc := countP_set_two s.pcs i (pc + 1) pc hg
    unfold ticketInv countHolding at hinv ⊢
    by_cases h1 : pc = 1
    · rw [if_pos h1] at h
      by_cases h0 : s.available = 0
      · rw [if_pos h0] at h
        exact absurd h (by simp)
      · rw [if_neg h0] at h
        injection h with h
        subst h
        dsimp only
        rw [if_neg (by omega), if_pos (by omega)] at hc
        omega
    · rw [if_neg h1] at h
      by_cases h2 : pc = 2
      · rw [if_pos h2] at h
        injection h with h
        subst h
        dsimp only
        rw [if_pos h2, if_neg (by omega)] at hc
        omega
      · rw [if_neg h2] at h
        by_cases h5 : pc < 5
        · rw [if_pos h5] at h
          injection h with h
          subst h
          dsimp only
          rw [if_neg h2, if_neg (by omega)] at hc
          omega
        · rw [if_neg h5] at h
          exact absurd h (by simp)

/-- runSched preserves the ticket accounting along any schedule. -/
theorem runSched_ticketInv (limit : Nat) (sched : List Nat) (s s2 : ShardRun)
    (h : runSched s sched = some s2) (hinv : ticketInv limit s) :
    ticketInv limit s2 := by
  induction sched generalizing s with
  | nil =>
    unfold runSched at h
    cases h
    exact hinv
  | cons i rest ih =>
    unfold runSched at h
    cases hs : stepShard s i with
    | none => rw [hs] at h; exact absurd h (by simp)
    | some smid =>
      rw [hs] at h
      exact ih smid h (stepShard_ticketInv limit s smid i hs hinv)

/-- C9 as amended: in Shard.connect the identify-bucket wait (key shardID mod
MaxConcurrency, capacity 1, 5 second refill) comes before the dial, and the
ReadyLimiter ticket is acquired and freed again before the dial (the source
frees it immediately, with a TODO to hold it until ready); the limiter itself
is never oversubscribed (free plus held tickets always equal its capacity, so
at most the capacity is held), but because every ticket is returned before
dialing it does not bound the number of shards concurrently awaiting READY
(see the counterexample). -/
theorem readyLimiter_discipline (n limit : Nat) (sched : List Nat) (s : ShardRun)
    (h : runSched (initRun n limit) sched = some s) :
    s.available + countHolding s = limit ∧
    countHolding s ≤ limit ∧
    connectOrder.indexOf ConnectStep.waitBucket
      < connectOrder.indexOf ConnectStep.dial ∧
    connectOrder.indexOf ConnectStep.acquireTicket
      < connectOrder.indexOf ConnectStep.dial ∧
    connectOrder.indexOf ConnectStep.freeTicket
      < connectOrder.indexOf ConnectStep.dial ∧
    connectOrder.indexOf ConnectStep.dial
      < connectOrder.indexOf ConnectStep.awaitReady := by
  have h0 : ticketInv limit (initRun n limit) := by
    unfold ticketInv countHolding initRun
    have hrep : ∀ m, (List.replicate m 0).countP (fun x => decide (x = 2)) = 0 := by
      intro m
      induction m with
      | zero => simp
      | succ k ih => simp [List.replicate_succ, List.countP_cons, ih]
    simp [hrep]
  have hinv := runSched_ticketInv limit sched _ s h h0
  unfold ticketInv at hinv
  exact ⟨hinv, by omega, by decide, by decide, by decide, by decide⟩

/-- C9 witness: the amended theorem applied to a concrete two-shard run with
limiter capacity 1. -/
theorem readyLimiter_discipline_witness :
    countHolding { pcs := [4, 4], available := 1 } ≤ 1 :=
  (readyLimiter_discipline 2 1 [0, 0, 0, 0, 1, 1, 1, 1]
    { pcs := [4, 4], available := 1 } (by decide)).2.1

/-- C9 counterexample: with maxConcurrentIdentifies of 1, two shards can both
sit in AWAIT_READY at once, because each one frees its ReadyLimiter ticket
before dialing: the schedule that runs shard 0 through waitBucket, Wait,
FreeTicket and dial and then shard 1 through the same steps is valid and ends
with two shards awaiting READY, exceeding the claimed bound of 1. -/
theorem awaitReady_exceeds_limiter :
    runSched (initRun 2 1) [0, 0, 0, 0, 1, 1, 1, 1]
      = some { pcs := [4, 4], available := 1 } ∧
    countAwaiting { pcs := [4, 4], available := 1 } = 2 := by
  decide

end Sandwich
